import Mathlib

/-!
Shallow embedding of the FastAPI CRUD service in `main.py` together with the
Pydantic models in `models/course.py` and `models/assignment.py`
(Person/Address/Health model files are not part of the sources; where a claim
needs them they are modelled from the spec and marked as such).

Modelling conventions:
* `UUID` and timestamps (`datetime.utcnow()` readings) are abstracted as `Nat`;
  comparison of timestamps is `Nat` order, which is faithful for a monotone
  clock.
* Python `dict[UUID, R]` preserves insertion order; assignment to an existing
  key replaces the value in place, assignment to a fresh key appends.  It is
  embedded as an association list `List (UUID × R)` with `dictInsert`,
  `dictLookup`, `dictDelete`, `dictValues` implementing exactly those
  semantics.
* Each HTTP handler becomes a pure function from its inputs and the store to
  `(Except ApiError result) × store`: `HTTPException` becomes `Except.error`
  and the returned store is the store after the call (unchanged when the
  handler raises before mutating, exactly as in the Python code).
* Pydantic default factories (`uuid4`, `datetime.utcnow`) run only for fields
  that are absent from the constructor keyword arguments.  Where they do run
  (record construction in the create handlers) the generated id and the two
  clock readings appear as explicit extra parameters of the embedded handler.
* A Pydantic partial-update model dumped with `exclude_unset=True` contributes
  exactly the keys the caller supplied.  Each update-model field is embedded
  as `Option τ` where `τ` is the stored field's type: `none` means "key not
  supplied", `some v` means "key supplied with value `v`".
-/

/-- `uuid.UUID`, abstracted. -/
abbrev UUID := Nat

/-- A `datetime.utcnow()` reading, abstracted; larger means later. -/
abbrev Timestamp := Nat

/-- `datetime.date`: year, month, day. -/
structure PyDate where
  year : Nat
  month : Nat
  day : Nat
deriving DecidableEq, Repr

/-- Zero-padding to two digits, as in Python `str(date)`. -/
def pad2 (n : Nat) : String :=
  if n < 10 then "0" ++ toString n else toString n

/-- Zero-padding to four digits, as in Python `str(date)`. -/
def pad4 (n : Nat) : String :=
  if n < 10 then "000" ++ toString n
  else if n < 100 then "00" ++ toString n
  else if n < 1000 then "0" ++ toString n
  else toString n

/-- Python `str(d)` for a `datetime.date`: ISO `YYYY-MM-DD`. -/
def PyDate.str (d : PyDate) : String :=
  pad4 d.year ++ "-" ++ pad2 d.month ++ "-" ++ pad2 d.day

/-- The two `HTTPException` kinds raised anywhere in `main.py`:
`Conflict` (status 400, create with an existing id) and `NotFound`
(status 404, absent id on get/update/delete). -/
inductive ApiError where
  | conflict
  | notFound
deriving DecidableEq, Repr

/-- The HTTP status code carried by each error. -/
def ApiError.status : ApiError → Nat
  | .conflict => 400
  | .notFound => 404

/-- A resource store: Python `dict[UUID, R]` as an insertion-ordered
association list. -/
abbrev Store (R : Type) := List (UUID × R)

/-- `d[k] = v`: replace in place if `k` is present, else append. -/
def dictInsert (k : UUID) (v : R) : Store R → Store R
  | [] => [(k, v)]
  | (k1, v1) :: rest =>
      if k1 = k then (k, v) :: rest else (k1, v1) :: dictInsert k v rest

/-- `d[k]` / `d.get(k)`: the value stored at `k`, if any. -/
def dictLookup (k : UUID) : Store R → Option R
  | [] => none
  | (k1, v1) :: rest => if k1 = k then some v1 else dictLookup k rest

/-- `k in d`. -/
def dictContains (k : UUID) (d : Store R) : Bool :=
  (dictLookup k d).isSome

/-- `del d[k]`. -/
def dictDelete (k : UUID) : Store R → Store R
  | [] => []
  | (k1, v1) :: rest => if k1 = k then rest else (k1, v1) :: dictDelete k rest

/-- `list(d.values())`, in insertion order. -/
def dictValues (d : Store R) : List R :=
  d.map Prod.snd

/-! ### Course models (`models/course.py`) -/

/-- `CourseBase`: the payload fields shared by `CourseCreate` and
`CourseRead`.  `credits` is a Python `int`, embedded as `Int`. -/
structure CourseBase where
  course_code : String
  title : String
  description : String
  credits : Int
  instructor : String
  schedule : String
  semester : Option String
  location : Option String
deriving DecidableEq, Repr

/-- `CourseCreate(CourseBase)` adds no fields. -/
abbrev CourseCreate := CourseBase

/-- `CourseUpdate`: every payload field optional; `none` = key not supplied
(`exclude_unset` drops it), `some v` = key supplied with value `v`.  The
model declares no `id`, `created_at` or `updated_at` field. -/
structure CourseUpdate where
  course_code : Option String
  title : Option String
  description : Option String
  credits : Option Int
  instructor : Option String
  schedule : Option String
  semester : Option (Option String)
  location : Option (Option String)
deriving DecidableEq, Repr

/-- `CourseRead(CourseBase)`: adds the server-managed `id`, `created_at`,
`updated_at`. -/
structure CourseRead extends CourseBase where
  id : UUID
  created_at : Timestamp
  updated_at : Timestamp
deriving DecidableEq, Repr

abbrev CourseStore := Store CourseRead

/-- The merge performed by `update_course`:
`stored = courses[course_id].model_dump()` followed by
`stored.update(update.model_dump(exclude_unset=True))` and
`CourseRead(**stored)`.  Every key of `stored` is present in the constructor
call, so no default factory runs: `id`, `created_at` and `updated_at` are
taken from the stored record unchanged, and each payload field is the
supplied value if the key was supplied, else the stored value. -/
def applyCourseUpdate (stored : CourseRead) (u : CourseUpdate) : CourseRead :=
  { stored with
    course_code := u.course_code.getD stored.course_code
    title := u.title.getD stored.title
    description := u.description.getD stored.description
    credits := u.credits.getD stored.credits
    instructor := u.instructor.getD stored.instructor
    schedule := u.schedule.getD stored.schedule
    semester := u.semester.getD stored.semester
    location := u.location.getD stored.location }

/-! ### Course handlers (`main.py`) -/

/-- `POST /courses` (status 201).  `CourseRead(**course.model_dump())` runs
the three default factories; the `uuid4()` result and the two successive
`datetime.utcnow()` readings (`created_at`'s factory runs before
`updated_at`'s, in field order) appear as parameters `gen_id`, `t_created`,
`t_updated`.  No membership check: the new record is stored unconditionally
under its generated id. -/
def create_course (course : CourseCreate) (gen_id : UUID)
    (t_created t_updated : Timestamp) (courses : CourseStore) :
    (Except ApiError CourseRead) × CourseStore :=
  let course_read : CourseRead :=
    { toCourseBase := course, id := gen_id,
      created_at := t_created, updated_at := t_updated }
  (.ok course_read, dictInsert course_read.id course_read courses)

/-- The five optional query filters of `GET /courses`. -/
structure CourseFilters where
  course_code : Option String
  title : Option String
  instructor : Option String
  credits : Option Int
  semester : Option String
deriving Repr

/-- `GET /courses`: starts from `list(courses.values())` and narrows by each
supplied filter in turn, with `==` equality.  Total: never fails. -/
def list_courses (f : CourseFilters) (courses : CourseStore) :
    List CourseRead :=
  let results := dictValues courses
  let results := match f.course_code with
    | none => results
    | some q => results.filter fun c => c.course_code == q
  let results := match f.title with
    | none => results
    | some q => results.filter fun c => c.title == q
  let results := match f.instructor with
    | none => results
    | some q => results.filter fun c => c.instructor == q
  let results := match f.credits with
    | none => results
    | some q => results.filter fun c => c.credits == q
  let results := match f.semester with
    | none => results
    | some q => results.filter fun c => c.semester == some q
  results

/-- `GET /courses/{course_id}`: 404 if absent, else the stored record.  The
store is never mutated. -/
def get_course (course_id : UUID) (courses : CourseStore) :
    (Except ApiError CourseRead) × CourseStore :=
  match dictLookup course_id courses with
  | none => (.error .notFound, courses)
  | some c => (.ok c, courses)

/-- `PATCH /courses/{course_id}`: 404 if absent (store untouched), else store
and return the merged record.  No clock is read: `CourseRead(**stored)`
receives every field, including `updated_at`, so its default factory is not
invoked. -/
def update_course (course_id : UUID) (update : CourseUpdate)
    (courses : CourseStore) : (Except ApiError CourseRead) × CourseStore :=
  match dictLookup course_id courses with
  | none => (.error .notFound, courses)
  | some stored =>
      let merged := applyCourseUpdate stored update
      (.ok merged, dictInsert course_id merged courses)

/-- `DELETE /courses/{course_id}` (status 204): 404 if absent (store
untouched), else remove the record. -/
def delete_course (course_id : UUID) (courses : CourseStore) :
    (Except ApiError Unit) × CourseStore :=
  match dictLookup course_id courses with
  | none => (.error .notFound, courses)
  | some _ => (.ok (), dictDelete course_id courses)

/-! ### Assignment models (`models/assignment.py`) -/

/-- `AssignmentBase`: payload fields shared by `AssignmentCreate` and
`AssignmentRead`.  `description` and `max_points` are `Optional` in the
schema. -/
structure AssignmentBase where
  title : String
  description : Option String
  assignment_type : String
  course_id : UUID
  assigned_date : PyDate
  due_date : PyDate
  max_points : Option Int
deriving DecidableEq, Repr

/-- `AssignmentCreate(AssignmentBase)` adds no fields. -/
abbrev AssignmentCreate := AssignmentBase

/-- `AssignmentUpdate`: every payload field optional, `none` = key not
supplied; no `id`, `created_at` or `updated_at` field. -/
structure AssignmentUpdate where
  title : Option String
  description : Option (Option String)
  assignment_type : Option String
  course_id : Option UUID
  assigned_date : Option PyDate
  due_date : Option PyDate
  max_points : Option (Option Int)
deriving DecidableEq, Repr

/-- `AssignmentRead(AssignmentBase)`: adds `id`, `created_at`, `updated_at`. -/
structure AssignmentRead extends AssignmentBase where
  id : UUID
  created_at : Timestamp
  updated_at : Timestamp
deriving DecidableEq, Repr

abbrev AssignmentStore := Store AssignmentRead

/-- The merge performed by `update_assignment`; same dump/update/rebuild
shape as `applyCourseUpdate`, so `id`, `created_at` and `updated_at` come
from the stored record unchanged. -/
def applyAssignmentUpdate (stored : AssignmentRead) (u : AssignmentUpdate) :
    AssignmentRead :=
  { stored with
    title := u.title.getD stored.title
    description := u.description.getD stored.description
    assignment_type := u.assignment_type.getD stored.assignment_type
    course_id := u.course_id.getD stored.course_id
    assigned_date := u.assigned_date.getD stored.assigned_date
    due_date := u.due_date.getD stored.due_date
    max_points := u.max_points.getD stored.max_points }

/-! ### Assignment handlers (`main.py`) -/

/-- `POST /assignments` (status 201): unconditional insert under the
generated id, no membership check; parameters as in `create_course`. -/
def create_assignment (assignment : AssignmentCreate) (gen_id : UUID)
    (t_created t_updated : Timestamp) (assignments : AssignmentStore) :
    (Except ApiError AssignmentRead) × AssignmentStore :=
  let assignment_read : AssignmentRead :=
    { toAssignmentBase := assignment, id := gen_id,
      created_at := t_created, updated_at := t_updated }
  (.ok assignment_read,
   dictInsert assignment_read.id assignment_read assignments)

/-- `GET /assignments/{assignment_id}`. -/
def get_assignment (assignment_id : UUID) (assignments : AssignmentStore) :
    (Except ApiError AssignmentRead) × AssignmentStore :=
  match dictLookup assignment_id assignments with
  | none => (.error .notFound, assignments)
  | some a => (.ok a, assignments)

/-- `PATCH /assignments/{assignment_id}`: 404 if absent (store untouched),
else store and return the merged record; no clock read. -/
def update_assignment (assignment_id : UUID) (update : AssignmentUpdate)
    (assignments : AssignmentStore) :
    (Except ApiError AssignmentRead) × AssignmentStore :=
  match dictLookup assignment_id assignments with
  | none => (.error .notFound, assignments)
  | some stored =>
      let merged := applyAssignmentUpdate stored update
      (.ok merged, dictInsert assignment_id merged assignments)

/-! ### Address model and handlers

`models/address.py` is not among the sources; only `main.py`'s handlers are.
The record shape is modelled from the spec and the handlers' use of it. -/

/-- Modelled from the spec: `models/address.py` is missing from the sources.
Field set taken from the spec's Address filter list (street, city,
state/region, postal code, country) as used by `list_addresses` in
`main.py`; per the spec, the Address creation payload carries a
caller-supplied identifier (`address.id` in `create_address`), and
`AddressRead(**address.model_dump())` copies all of these fields. -/
structure AddressRead where
  id : UUID
  street : String
  city : String
  state : String
  postal_code : String
  country : String
deriving DecidableEq, Repr

/-- Modelled from the spec: the creation payload has the same fields,
including the caller-supplied `id`. -/
abbrev AddressCreate := AddressRead

abbrev AddressStore := Store AddressRead

/-- The `status_code=201` of the `POST /addresses` route decorator. -/
def create_address_success_status : Nat := 201

/-- `POST /addresses` (status 201): 400 `Conflict` if `address.id` is already
a key of the store (raised before any mutation), else the record is stored
under `address.id` and returned. -/
def create_address (address : AddressCreate) (addresses : AddressStore) :
    (Except ApiError AddressRead) × AddressStore :=
  if dictContains address.id addresses then
    (.error .conflict, addresses)
  else
    (.ok address, dictInsert address.id address addresses)

/-! ### Person model and handlers

`models/person.py` is not among the sources; only `main.py`'s handlers are.
The record shape is modelled from the spec and the handlers' use of it. -/

/-- Modelled from the spec: an Address-shaped value embedded in a Person
(the spec: "Person holds an embedded sequence of Address-shaped values");
only `city` and `country` are consulted by `list_persons`. -/
structure EmbeddedAddress where
  street : String
  city : String
  state : String
  postal_code : String
  country : String
deriving DecidableEq, Repr

/-- Modelled from the spec: `models/person.py` is missing from the sources.
Field set taken from the `list_persons` filters in `main.py` (uni,
first_name, last_name, email, phone, birth_date, addresses) plus the
server-managed `id`, `created_at`, `updated_at` that the spec gives every
Record. -/
structure PersonRead where
  uni : String
  first_name : String
  last_name : String
  email : String
  phone : String
  birth_date : PyDate
  addresses : List EmbeddedAddress
  id : UUID
  created_at : Timestamp
  updated_at : Timestamp
deriving DecidableEq, Repr

abbrev PersonStore := Store PersonRead

/-- Modelled from the spec: the Person creation payload carries the payload
fields but no server-managed fields. -/
structure PersonCreate where
  uni : String
  first_name : String
  last_name : String
  email : String
  phone : String
  birth_date : PyDate
  addresses : List EmbeddedAddress
deriving DecidableEq, Repr

/-- `POST /persons` (status 201): `PersonRead(**person.model_dump())` runs
the `id`/`created_at`/`updated_at` default factories (explicit parameters
here, as in `create_course`); the record is stored unconditionally under the
generated id, with no membership check. -/
def create_person (person : PersonCreate) (gen_id : UUID)
    (t_created t_updated : Timestamp) (persons : PersonStore) :
    (Except ApiError PersonRead) × PersonStore :=
  let person_read : PersonRead :=
    { uni := person.uni, first_name := person.first_name,
      last_name := person.last_name, email := person.email,
      phone := person.phone, birth_date := person.birth_date,
      addresses := person.addresses, id := gen_id,
      created_at := t_created, updated_at := t_updated }
  (.ok person_read, dictInsert person_read.id person_read persons)

/-- The eight optional query filters of `GET /persons`. -/
structure PersonFilters where
  uni : Option String
  first_name : Option String
  last_name : Option String
  email : Option String
  phone : Option String
  birth_date : Option String
  city : Option String
  country : Option String
deriving Repr

/-- `GET /persons`: starts from `list(persons.values())` and narrows by each
supplied filter in turn; `birth_date` compares `str(p.birth_date)` with the
query string; `city`/`country` keep a person when `any` embedded address
matches.  Total: never fails. -/
def list_persons (f : PersonFilters) (persons : PersonStore) :
    List PersonRead :=
  let results := dictValues persons
  let results := match f.uni with
    | none => results
    | some q => results.filter fun p => p.uni == q
  let results := match f.first_name with
    | none => results
    | some q => results.filter fun p => p.first_name == q
  let results := match f.last_name with
    | none => results
    | some q => results.filter fun p => p.last_name == q
  let results := match f.email with
    | none => results
    | some q => results.filter fun p => p.email == q
  let results := match f.phone with
    | none => results
    | some q => results.filter fun p => p.phone == q
  let results := match f.birth_date with
    | none => results
    | some q => results.filter fun p => p.birth_date.str == q
  let results := match f.city with
    | none => results
    | some q => results.filter fun p => p.addresses.any fun a => a.city == q
  let results := match f.country with
    | none => results
    | some q => results.filter fun p => p.addresses.any fun a => a.country == q
  results

/-! ### Derived filter predicates and auxiliary definitions -/

/-- The conjunction of the supplied `GET /courses` filters: an absent filter
imposes no constraint. -/
def courseMatches (f : CourseFilters) (c : CourseRead) : Bool :=
  (match f.course_code with | none => true | some q => c.course_code == q) &&
  (match f.title with | none => true | some q => c.title == q) &&
  (match f.instructor with | none => true | some q => c.instructor == q) &&
  (match f.credits with | none => true | some q => c.credits == q) &&
  (match f.semester with | none => true | some q => c.semester == some q)

/-- The conjunction of the supplied `GET /persons` filters. -/
def personMatches (f : PersonFilters) (p : PersonRead) : Bool :=
  (match f.uni with | none => true | some q => p.uni == q) &&
  (match f.first_name with | none => true | some q => p.first_name == q) &&
  (match f.last_name with | none => true | some q => p.last_name == q) &&
  (match f.email with | none => true | some q => p.email == q) &&
  (match f.phone with | none => true | some q => p.phone == q) &&
  (match f.birth_date with
   | none => true | some q => p.birth_date.str == q) &&
  (match f.city with
   | none => true | some q => p.addresses.any fun a => a.city == q) &&
  (match f.country with
   | none => true | some q => p.addresses.any fun a => a.country == q)

/-- No course filter supplied. -/
def noCourseFilters : CourseFilters := ⟨none, none, none, none, none⟩

/-- No person filter supplied. -/
def noPersonFilters : PersonFilters :=
  ⟨none, none, none, none, none, none, none, none⟩

/-- The empty course update payload: no key supplied. -/
def emptyCourseUpdate : CourseUpdate :=
  ⟨none, none, none, none, none, none, none, none⟩

/-! ### Concrete sample data (used by the witness theorems) -/

/-- The course payload of the spec's example scenario. -/
def demoCourseBase : CourseBase :=
  { course_code := "COMS W4153", title := "Cloud Computing",
    description := "An introduction to cloud computing", credits := 3,
    instructor := "Ferguson", schedule := "MWF 10:00-11:15",
    semester := some "Fall 2025", location := none }

/-- The stored record produced by creating `demoCourseBase` with generated
id 1 at clock reading 0 (both timestamp factories read 0). -/
def demoStoredCourse : CourseRead :=
  { toCourseBase := demoCourseBase, id := 1, created_at := 0,
    updated_at := 0 }

/-- The update payload supplying only `credits := 4`, as in the spec's
example scenario. -/
def creditsUpdate : CourseUpdate :=
  { course_code := none, title := none, description := none,
    credits := some 4, instructor := none, schedule := none,
    semester := none, location := none }

/-- An update payload that supplies `course_code` with the empty string (a
falsy-but-present value) and `credits` with 4. -/
def blankCodeUpdate : CourseUpdate :=
  { course_code := some "", title := none, description := none,
    credits := some 4, instructor := none, schedule := none,
    semester := none, location := none }

/-- A stored assignment record. -/
def demoAssignment : AssignmentRead :=
  { title := "Programming Assignment 1", description := some "Web scraper",
    assignment_type := "homework", course_id := 1,
    assigned_date := ⟨2025, 9, 1⟩, due_date := ⟨2025, 9, 15⟩,
    max_points := some 100, id := 5, created_at := 0, updated_at := 0 }

/-- An assignment update payload supplying `title` and `max_points`. -/
def demoAssignUpdate : AssignmentUpdate :=
  { title := some "Final Project", description := none,
    assignment_type := none, course_id := none, assigned_date := none,
    due_date := none, max_points := some (some 150) }

/-- A stored address with caller-supplied id 9. -/
def demoAddress : AddressRead :=
  { id := 9, street := "116th and Broadway", city := "New York",
    state := "NY", postal_code := "10027", country := "USA" }

/-- A second address creation payload reusing id 9. -/
def demoAddressClash : AddressCreate :=
  { id := 9, street := "120th and Amsterdam", city := "New York",
    state := "NY", postal_code := "10027", country := "USA" }

/-! ### Dictionary lemmas -/

theorem dictLookup_dictInsert_self (k : UUID) (v : R) (d : Store R) :
    dictLookup k (dictInsert k v d) = some v := by
  induction d with
  | nil => simp [dictInsert, dictLookup]
  | cons hd tl ih =>
      obtain ⟨k1, v1⟩ := hd
      by_cases h : k1 = k
      · simp [dictInsert, dictLookup, h]
      · simp [dictInsert, dictLookup, h, ih]

theorem dictInsert_of_lookup_eq (k : UUID) (v : R) (d : Store R)
    (h : dictLookup k d = some v) : dictInsert k v d = d := by
  induction d with
  | nil => simp [dictLookup] at h
  | cons hd tl ih =>
      obtain ⟨k1, v1⟩ := hd
      by_cases hk : k1 = k
      · simp [dictLookup, hk] at h
        simp [dictInsert, hk, h]
      · simp [dictLookup, hk] at h
        simp [dictInsert, hk, ih h]

/-- Inserting replaces in place when the key is present (length unchanged)
and appends when it is fresh (length grows by one). -/
theorem dictInsert_length (k : UUID) (v : R) (d : Store R) :
    (dictInsert k v d).length
      = if dictContains k d = true then d.length else d.length + 1 := by
  induction d with
  | nil => simp [dictInsert, dictContains, dictLookup]
  | cons hd tl ih =>
      obtain ⟨k1, v1⟩ := hd
      by_cases hk : k1 = k
      · simp [dictInsert, dictContains, dictLookup, hk]
      · simp only [dictInsert, dictContains, dictLookup, hk, if_neg,
          if_false, List.length_cons, ih]
        by_cases hc : dictContains k tl = true
        · simp [dictContains] at hc
          simp [hc]
        · simp [dictContains] at hc
          simp [hc]

/-- `o.getD (o.getD x) = o.getD x`: resupplying a supplied value is a
no-op, not supplying leaves the prior value. -/
theorem getD_getD (o : Option A) (x : A) : o.getD (o.getD x) = o.getD x := by
  cases o <;> rfl

/-- The course merge is idempotent under a fixed payload. -/
theorem applyCourseUpdate_idem (s : CourseRead) (u : CourseUpdate) :
    applyCourseUpdate (applyCourseUpdate s u) u = applyCourseUpdate s u := by
  simp [applyCourseUpdate, getD_getD]

/-- Merging the empty payload is the identity. -/
theorem applyCourseUpdate_empty (s : CourseRead) :
    applyCourseUpdate s emptyCourseUpdate = s := rfl

/-! ### Closed forms of the list handlers -/

theorem list_courses_eq_filter (f : CourseFilters) (st : CourseStore) :
    list_courses f st = (dictValues st).filter (fun c => courseMatches f c) := by
  obtain ⟨fc, ft, fi, fcr, fs⟩ := f
  simp only [list_courses, courseMatches]
  cases fc <;> cases ft <;> cases fi <;> cases fcr <;> cases fs <;>
    simp [List.filter_filter, Bool.and_assoc, Bool.and_comm,
      Bool.and_left_comm]

theorem list_courses_no_filters (st : CourseStore) :
    list_courses noCourseFilters st = dictValues st := rfl

set_option maxHeartbeats 3200000 in
theorem list_persons_eq_filter (f : PersonFilters) (st : PersonStore) :
    list_persons f st = (dictValues st).filter (fun p => personMatches f p) := by
  obtain ⟨f1, f2, f3, f4, f5, f6, f7, f8⟩ := f
  simp only [list_persons, personMatches]
  cases f1 <;> cases f2 <;> cases f3 <;> cases f4 <;> cases f5 <;>
    cases f6 <;> cases f7 <;> cases f8 <;>
    simp [List.filter_filter, Bool.and_assoc, Bool.and_comm,
      Bool.and_left_comm]

theorem list_persons_no_filters (st : PersonStore) :
    list_persons noPersonFilters st = dictValues st := rfl

/-! ### Claim theorems -/

/-- C1: the claim says a successful update sets `updated_at` to the current
time, so that after an update following a create `updated_at > created_at`.
The code does not: `update_course` rebuilds `CourseRead` from the full dump
of the stored record, so the `updated_at` default factory never runs and no
clock is read.  Evaluating the spec's own example scenario — create the
course at clock reading 0, then update with credits 4 — the returned record
keeps `updated_at = 0 = created_at`, not `updated_at > created_at`. -/
theorem update_course_keeps_stale_updated_at :
    ∃ r : CourseRead,
      (update_course 1 creditsUpdate [(1, demoStoredCourse)]).1
          = Except.ok r ∧
      r.credits = 4 ∧
      r.updated_at = demoStoredCourse.updated_at ∧
      r.created_at = demoStoredCourse.created_at ∧
      ¬ r.created_at < r.updated_at :=
  ⟨applyCourseUpdate demoStoredCourse creditsUpdate, rfl, rfl, rfl, rfl,
   by decide⟩

/-- C7 counterexample: `created_at` and `updated_at` come from two separate
`datetime.utcnow` default-factory invocations (`t_created` then
`t_updated`); when the clock advances between them (readings 0 then 1) the
record returned by a successful create has `created_at ≠ updated_at`,
contradicting the claim's `created_at == updated_at`. -/
theorem create_course_distinct_clock_reads :
    ∃ r : CourseRead,
      (create_course demoCourseBase 7 0 1 []).1 = Except.ok r ∧
      r.created_at ≠ r.updated_at :=
  ⟨{ toCourseBase := demoCourseBase, id := 7, created_at := 0,
     updated_at := 1 }, rfl, by decide⟩

/-- C7 (amended): a create never fails, stores the record under the freshly
generated identifier, and sets `created_at` and `updated_at` from the two
successive clock readings taken during construction (`created_at`'s factory
runs first), so under a monotone clock `created_at ≤ updated_at`, with
equality exactly when the clock does not advance between the two reads. -/
theorem create_course_timestamps_from_clock_reads (c : CourseCreate)
    (gid : UUID) (t1 t2 : Timestamp) (st : CourseStore) (h : t1 ≤ t2) :
    ∃ r : CourseRead,
      create_course c gid t1 t2 st = (Except.ok r, dictInsert gid r st) ∧
      r.id = gid ∧ r.created_at = t1 ∧ r.updated_at = t2 ∧
      r.created_at ≤ r.updated_at :=
  ⟨{ toCourseBase := c, id := gid, created_at := t1, updated_at := t2 },
   rfl, rfl, rfl, rfl, h⟩

/-- Witness for the amended C7 theorem at a concrete input. -/
theorem create_course_timestamps_from_clock_reads_witness :
    ∃ r : CourseRead,
      create_course demoCourseBase 7 0 1 []
          = (Except.ok r, dictInsert 7 r []) ∧
      r.id = 7 ∧ r.created_at = 0 ∧ r.updated_at = 1 ∧
      r.created_at ≤ r.updated_at :=
  create_course_timestamps_from_clock_reads demoCourseBase 7 0 1 []
    (by decide)

/-- C9: updating with the empty partial payload (no key supplied) returns
the stored record unchanged in every field — `id`, `created_at` and
`updated_at` included (no clock is read) — and leaves the store's contents
unchanged: the empty merge is an identity. -/
theorem update_course_empty_payload_identity (cid : UUID) (st : CourseStore)
    (stored : CourseRead) (h : dictLookup cid st = some stored) :
    update_course cid emptyCourseUpdate st = (Except.ok stored, st) := by
  simp only [update_course, h, applyCourseUpdate_empty]
  rw [dictInsert_of_lookup_eq cid stored st h]

/-- Witness for the C9 theorem at a concrete input. -/
theorem update_course_empty_payload_identity_witness :
    update_course 1 emptyCourseUpdate [(1, demoStoredCourse)]
      = (Except.ok demoStoredCourse, [(1, demoStoredCourse)]) :=
  update_course_empty_payload_identity 1 [(1, demoStoredCourse)]
    demoStoredCourse rfl

/-- C10: `create_person`, `create_course` and `create_assignment` perform no
membership check and never fail: the new record is stored unconditionally
under its generated id (`dictInsert`), which replaces in place when the id
is already a key (length unchanged — the prior record is silently
overwritten, and the store afterwards holds the new record at that id) and
appends when it is fresh. -/
theorem creates_insert_unconditionally (c : CourseCreate) (p : PersonCreate)
    (a : AssignmentCreate) (gid : UUID) (t1 t2 : Timestamp)
    (cst : CourseStore) (pst : PersonStore) (ast : AssignmentStore) :
    (∃ r : CourseRead,
      create_course c gid t1 t2 cst = (Except.ok r, dictInsert gid r cst) ∧
      dictLookup gid (dictInsert gid r cst) = some r ∧
      (dictInsert gid r cst).length
        = if dictContains gid cst = true then cst.length
          else cst.length + 1) ∧
    (∃ r : PersonRead,
      create_person p gid t1 t2 pst = (Except.ok r, dictInsert gid r pst) ∧
      dictLookup gid (dictInsert gid r pst) = some r ∧
      (dictInsert gid r pst).length
        = if dictContains gid pst = true then pst.length
          else pst.length + 1) ∧
    (∃ r : AssignmentRead,
      create_assignment a gid t1 t2 ast
          = (Except.ok r, dictInsert gid r ast) ∧
      dictLookup gid (dictInsert gid r ast) = some r ∧
      (dictInsert gid r ast).length
        = if dictContains gid ast = true then ast.length
          else ast.length + 1) :=
  ⟨⟨_, rfl, dictLookup_dictInsert_self _ _ _, dictInsert_length _ _ _⟩,
   ⟨_, rfl, dictLookup_dictInsert_self _ _ _, dictInsert_length _ _ _⟩,
   ⟨_, rfl, dictLookup_dictInsert_self _ _ _, dictInsert_length _ _ _⟩⟩

/-- C5: `create_address` fails with `Conflict` (HTTP 400) exactly when the
payload's caller-supplied id is already a key, and then leaves the store
untouched; otherwise (route status 201) the record is stored under its id
and returned. -/
theorem create_address_conflict_iff_id_present (a : AddressCreate)
    (st : AddressStore) :
    (dictContains a.id st = true →
      create_address a st = (Except.error ApiError.conflict, st)) ∧
    (dictContains a.id st = false →
      create_address a st = (Except.ok a, dictInsert a.id a st) ∧
      dictLookup a.id (dictInsert a.id a st) = some a) ∧
    ApiError.status ApiError.conflict = 400 ∧
    create_address_success_status = 201 := by
  refine ⟨fun h => ?_, fun h => ⟨?_, dictLookup_dictInsert_self _ _ _⟩,
    rfl, rfl⟩ <;> simp [create_address, h]

/-- Witness for the C5 theorem: both branches at concrete inputs — id 9
clashes with the stored `demoAddress`, and creation into the empty store
succeeds. -/
theorem create_address_conflict_iff_id_present_witness :
    create_address demoAddressClash [(9, demoAddress)]
        = (Except.error ApiError.conflict, [(9, demoAddress)]) ∧
    (create_address demoAddress []
        = (Except.ok demoAddress, dictInsert demoAddress.id demoAddress [])
      ∧ dictLookup demoAddress.id (dictInsert demoAddress.id demoAddress [])
        = some demoAddress) :=
  ⟨(create_address_conflict_iff_id_present demoAddressClash
      [(9, demoAddress)]).1 (by decide),
   (create_address_conflict_iff_id_present demoAddress []).2.1 (by decide)⟩

/-- C2: a successful update stores and returns a record in which every field
whose key was supplied in the partial payload carries the supplied value —
even a falsy one such as the empty string, since the criterion is key
presence (`some v`), not truthiness — and every field whose key was not
supplied (`none`) keeps its stored value; shown for `update_course` and
`update_assignment`. -/
theorem update_overwrites_exactly_supplied_fields (cid : UUID)
    (u : CourseUpdate) (cst : CourseStore) (cstored : CourseRead)
    (hc : dictLookup cid cst = some cstored)
    (aid : UUID) (au : AssignmentUpdate) (ast : AssignmentStore)
    (astored : AssignmentRead) (ha : dictLookup aid ast = some astored) :
    (∃ r : CourseRead,
      update_course cid u cst = (Except.ok r, dictInsert cid r cst) ∧
      r.course_code = u.course_code.getD cstored.course_code ∧
      r.title = u.title.getD cstored.title ∧
      r.description = u.description.getD cstored.description ∧
      r.credits = u.credits.getD cstored.credits ∧
      r.instructor = u.instructor.getD cstored.instructor ∧
      r.schedule = u.schedule.getD cstored.schedule ∧
      r.semester = u.semester.getD cstored.semester ∧
      r.location = u.location.getD cstored.location) ∧
    (∃ r : AssignmentRead,
      update_assignment aid au ast = (Except.ok r, dictInsert aid r ast) ∧
      r.title = au.title.getD astored.title ∧
      r.description = au.description.getD astored.description ∧
      r.assignment_type = au.assignment_type.getD astored.assignment_type ∧
      r.course_id = au.course_id.getD astored.course_id ∧
      r.assigned_date = au.assigned_date.getD astored.assigned_date ∧
      r.due_date = au.due_date.getD astored.due_date ∧
      r.max_points = au.max_points.getD astored.max_points) := by
  refine ⟨⟨applyCourseUpdate cstored u, ?_, rfl, rfl, rfl, rfl, rfl, rfl,
           rfl, rfl⟩,
          ⟨applyAssignmentUpdate astored au, ?_, rfl, rfl, rfl, rfl, rfl,
           rfl, rfl⟩⟩
  · simp [update_course, hc]
  · simp [update_assignment, ha]

/-- Witness for the C2 theorem: `blankCodeUpdate` supplies `course_code` as
the empty string (which overwrites) and `credits` as 4, leaving the other
fields at their stored values; `demoAssignUpdate` supplies `title` and
`max_points`. -/
theorem update_overwrites_exactly_supplied_fields_witness :
    (∃ r : CourseRead,
      update_course 1 blankCodeUpdate [(1, demoStoredCourse)]
          = (Except.ok r, dictInsert 1 r [(1, demoStoredCourse)]) ∧
      r.course_code = "" ∧
      r.title = "Cloud Computing" ∧
      r.description = "An introduction to cloud computing" ∧
      r.credits = 4 ∧
      r.instructor = "Ferguson" ∧
      r.schedule = "MWF 10:00-11:15" ∧
      r.semester = some "Fall 2025" ∧
      r.location = none) ∧
    (∃ r : AssignmentRead,
      update_assignment 5 demoAssignUpdate [(5, demoAssignment)]
          = (Except.ok r, dictInsert 5 r [(5, demoAssignment)]) ∧
      r.title = "Final Project" ∧
      r.description = some "Web scraper" ∧
      r.assignment_type = "homework" ∧
      r.course_id = 1 ∧
      r.assigned_date = ⟨2025, 9, 1⟩ ∧
      r.due_date = ⟨2025, 9, 15⟩ ∧
      r.max_points = some 150) :=
  update_overwrites_exactly_supplied_fields 1 blankCodeUpdate
    [(1, demoStoredCourse)] demoStoredCourse rfl
    5 demoAssignUpdate [(5, demoAssignment)] demoAssignment rfl

/-- C3: a successful update stores and returns a record whose `id` and
`created_at` equal those of the previously stored record, for courses and
assignments alike; the update payload models declare no identifier field, so
a payload cannot even attempt to change them. -/
theorem update_never_changes_id_or_created_at (cid : UUID)
    (u : CourseUpdate) (cst : CourseStore) (cstored : CourseRead)
    (hc : dictLookup cid cst = some cstored)
    (aid : UUID) (au : AssignmentUpdate) (ast : AssignmentStore)
    (astored : AssignmentRead) (ha : dictLookup aid ast = some astored) :
    (∃ r : CourseRead,
      update_course cid u cst = (Except.ok r, dictInsert cid r cst) ∧
      r.id = cstored.id ∧ r.created_at = cstored.created_at ∧
      dictLookup cid (dictInsert cid r cst) = some r) ∧
    (∃ r : AssignmentRead,
      update_assignment aid au ast = (Except.ok r, dictInsert aid r ast) ∧
      r.id = astored.id ∧ r.created_at = astored.created_at ∧
      dictLookup aid (dictInsert aid r ast) = some r) := by
  refine ⟨⟨applyCourseUpdate cstored u, ?_, rfl, rfl,
           dictLookup_dictInsert_self _ _ _⟩,
          ⟨applyAssignmentUpdate astored au, ?_, rfl, rfl,
           dictLookup_dictInsert_self _ _ _⟩⟩
  · simp [update_course, hc]
  · simp [update_assignment, ha]

/-- Witness for the C3 theorem at concrete inputs. -/
theorem update_never_changes_id_or_created_at_witness :
    (∃ r : CourseRead,
      update_course 1 creditsUpdate [(1, demoStoredCourse)]
          = (Except.ok r, dictInsert 1 r [(1, demoStoredCourse)]) ∧
      r.id = 1 ∧ r.created_at = 0 ∧
      dictLookup 1 (dictInsert 1 r [(1, demoStoredCourse)]) = some r) ∧
    (∃ r : AssignmentRead,
      update_assignment 5 demoAssignUpdate [(5, demoAssignment)]
          = (Except.ok r, dictInsert 5 r [(5, demoAssignment)]) ∧
      r.id = 5 ∧ r.created_at = 0 ∧
      dictLookup 5 (dictInsert 5 r [(5, demoAssignment)]) = some r) :=
  update_never_changes_id_or_created_at 1 creditsUpdate
    [(1, demoStoredCourse)] demoStoredCourse rfl
    5 demoAssignUpdate [(5, demoAssignment)] demoAssignment rfl

/-- C4: `get_course`, `update_course` and `delete_course` fail — and fail
with `NotFound` (HTTP 404) — exactly when the id is not a key of the store;
on failure the store is unchanged (get never mutates at all); and
`Conflict`/`NotFound` are the only error kinds any handler can produce
(`ApiError` has no other constructor). -/
theorem course_ops_notfound_iff_absent (cid : UUID) (u : CourseUpdate)
    (st : CourseStore) :
    ((get_course cid st).1 = Except.error ApiError.notFound
        ↔ dictContains cid st = false) ∧
    ((update_course cid u st).1 = Except.error ApiError.notFound
        ↔ dictContains cid st = false) ∧
    ((delete_course cid st).1 = Except.error ApiError.notFound
        ↔ dictContains cid st = false) ∧
    ((get_course cid st).1.isOk = dictContains cid st) ∧
    ((update_course cid u st).1.isOk = dictContains cid st) ∧
    ((delete_course cid st).1.isOk = dictContains cid st) ∧
    ((get_course cid st).2 = st) ∧
    (dictContains cid st = false → (update_course cid u st).2 = st) ∧
    (dictContains cid st = false → (delete_course cid st).2 = st) ∧
    (∀ e : ApiError, e = ApiError.conflict ∨ e = ApiError.notFound) ∧
    ApiError.status ApiError.notFound = 404 := by
  have hAll : ∀ e : ApiError,
      e = ApiError.conflict ∨ e = ApiError.notFound := by
    intro e
    cases e
    · exact Or.inl rfl
    · exact Or.inr rfl
  rcases h : dictLookup cid st with _ | c <;>
    refine ⟨?_, ?_, ?_, ?_, ?_, ?_, ?_, ?_, ?_, hAll, rfl⟩ <;>
    simp [get_course, update_course, delete_course, dictContains, h,
      Except.isOk, Except.toBool]

/-- Witness for the C4 theorem: id 2 is absent from a store holding only
id 1, so all three operations fail with `NotFound` and leave the store
unchanged. -/
theorem course_ops_notfound_iff_absent_witness :
    ((get_course 2 [(1, demoStoredCourse)]).1
        = Except.error ApiError.notFound) ∧
    ((update_course 2 creditsUpdate [(1, demoStoredCourse)]).1
        = Except.error ApiError.notFound) ∧
    ((delete_course 2 [(1, demoStoredCourse)]).1
        = Except.error ApiError.notFound) ∧
    ((update_course 2 creditsUpdate [(1, demoStoredCourse)]).2
        = [(1, demoStoredCourse)]) ∧
    ((delete_course 2 [(1, demoStoredCourse)]).2
        = [(1, demoStoredCourse)]) :=
  ⟨(course_ops_notfound_iff_absent 2 creditsUpdate
      [(1, demoStoredCourse)]).1.mpr (by decide),
   (course_ops_notfound_iff_absent 2 creditsUpdate
      [(1, demoStoredCourse)]).2.1.mpr (by decide),
   (course_ops_notfound_iff_absent 2 creditsUpdate
      [(1, demoStoredCourse)]).2.2.1.mpr (by decide),
   (course_ops_notfound_iff_absent 2 creditsUpdate
      [(1, demoStoredCourse)]).2.2.2.2.2.2.2.1 (by decide),
   (course_ops_notfound_iff_absent 2 creditsUpdate
      [(1, demoStoredCourse)]).2.2.2.2.2.2.2.2.1 (by decide)⟩

/-- C8: applying the same partial payload twice in succession yields the
same payload field values as applying it once — resupplying each supplied
value overwrites it with itself and unsupplied fields stay put, so the
merge is idempotent on the resource's fields. -/
theorem update_idempotent_on_fields (cid : UUID) (u : CourseUpdate)
    (st st1 st2 : CourseStore) (r1 r2 : CourseRead)
    (h1 : update_course cid u st = (Except.ok r1, st1))
    (h2 : update_course cid u st1 = (Except.ok r2, st2)) :
    r2.toCourseBase = r1.toCourseBase := by
  rcases hl : dictLookup cid st with _ | stored
  · simp [update_course, hl] at h1
  · simp only [update_course, hl, Prod.mk.injEq, Except.ok.injEq] at h1
    obtain ⟨hr1, hs1⟩ := h1
    have hlook1 : dictLookup cid st1 = some r1 := by
      rw [← hs1, hr1]
      exact dictLookup_dictInsert_self _ _ _
    simp only [update_course, hlook1, Prod.mk.injEq, Except.ok.injEq] at h2
    obtain ⟨hr2, _⟩ := h2
    rw [← hr2, ← hr1, applyCourseUpdate_idem]

/-- Witness for the C8 theorem: updating the demo course with
`creditsUpdate` twice gives the same payload fields as updating once. -/
theorem update_idempotent_on_fields_witness :
    (applyCourseUpdate demoStoredCourse creditsUpdate).toCourseBase
      = { demoCourseBase with credits := 4 } :=
  update_idempotent_on_fields 1 creditsUpdate [(1, demoStoredCourse)]
    [(1, applyCourseUpdate demoStoredCourse creditsUpdate)]
    [(1, applyCourseUpdate demoStoredCourse creditsUpdate)]
    (applyCourseUpdate demoStoredCourse creditsUpdate)
    (applyCourseUpdate demoStoredCourse creditsUpdate) rfl rfl

/-- C6: each list handler returns, in the store's insertion order, exactly
the records satisfying the conjunction of the supplied filters (an absent
filter imposes no constraint; string comparison is `==`, i.e. case-sensitive
equality; `birth_date` compares the textual `YYYY-MM-DD` rendering of the
stored date; a person's `city`/`country` filter is satisfied when at least
one embedded address matches); with no filters every stored record is
returned.  Both handlers are total functions into `List`: they never
fail. -/
theorem list_handlers_filter_conjunctively :
    (∀ (f : CourseFilters) (st : CourseStore),
      list_courses f st
        = (dictValues st).filter (fun c => courseMatches f c)) ∧
    (∀ st : CourseStore, list_courses noCourseFilters st = dictValues st) ∧
    (∀ (f : PersonFilters) (st : PersonStore),
      list_persons f st
        = (dictValues st).filter (fun p => personMatches f p)) ∧
    (∀ st : PersonStore, list_persons noPersonFilters st = dictValues st) :=
  ⟨list_courses_eq_filter, list_courses_no_filters,
   list_persons_eq_filter, list_persons_no_filters⟩
